import Mathlib

/-!
Verification of the LyraPointer gesture-control core.

This file shallowly embeds the pure interpretation pipeline of the repository:
the One-Euro coordinate smoother (src/tracker/smoother.py), the gesture
detector (src/gestures/detector.py), the control state machine
(src/core/state_machine.py) and the control-zone test of the screen manager
(src/control/screen.py).

Modelling conventions:
* Python floats are modelled as exact rationals; the float constant math.pi
  is embedded as its exact binary64 rational value.
* The detector is embedded after its per-frame feature extraction: the finger
  extension booleans, the two fingertip pinch distances and the index-tip
  position (the pure geometric features computed by the private helper
  methods from the raw landmarks) are the inputs of the embedded detect.
  Every comparison and state update of GestureDetector.detect is translated
  from that point on.
* Calls of time.time() / time.perf_counter() inside the source become an
  explicit timestamp argument.
* Python callbacks can raise: a callback is modelled as an id together with
  a raising flag; executing it yields an Except value, and the try/except
  blocks of the source are translated as handlers that discard the error and
  continue.  Invocation traces (lists of callback ids in invocation order)
  make the firing order observable.
* Dictionaries become association lists; the values stored in the state-data
  scratch dictionary of the state machine are irrelevant to every claim and
  are abstracted to their keys.
-/

namespace LyraPointer

/-! ## src/tracker/smoother.py -/

/-- The exact rational value of the binary64 constant math.pi
(884279719003555 * 2 ^ (-48)) used by the source. -/
def mathPi : ℚ := 884279719003555 / 281474976710656

/-- The Python builtin abs on a rational, written so that it evaluates by
kernel reduction. -/
def ratAbs (x : ℚ) : ℚ := if x < 0 then -x else x

theorem ratAbs_eq_abs (x : ℚ) : ratAbs x = |x| := by
  unfold ratAbs
  split
  · rw [abs_of_neg (by assumption)]
  · rw [abs_of_nonneg (le_of_not_lt (by assumption))]

/-- LowPassFilter (smoother.py lines 98-139): alpha coefficient plus an
optional last filtered value. -/
structure LowPassFilter where
  alpha : ℚ := 1/2
  lastValue : Option ℚ := none
  deriving DecidableEq, Repr

/-- LowPassFilter.filter: on the first call stores and returns the value
unchanged, afterwards blends with coefficient alpha (the optional argument
overrides the stored alpha, as in the source). Returns the output together
with the updated filter. -/
def LowPassFilter.filter (f : LowPassFilter) (value : ℚ) (alphaArg : Option ℚ) :
    ℚ × LowPassFilter :=
  let alpha := alphaArg.getD f.alpha
  match f.lastValue with
  | none => (value, { f with lastValue := some value })
  | some last =>
      let nv := alpha * value + (1 - alpha) * last
      (nv, { f with lastValue := some nv })

/-- LowPassFilter.reset: clears the stored value. -/
def LowPassFilter.reset (f : LowPassFilter) : LowPassFilter :=
  { f with lastValue := none }

/-- OneEuroFilter (smoother.py lines 142-230): parameters, the two internal
low-pass filters and the optional last timestamp. Defaults as in the source
constructor. -/
structure OneEuroFilter where
  minCutoff : ℚ := 4/5
  beta : ℚ := 2/5
  dCutoff : ℚ := 1
  xFilter : LowPassFilter := {}
  dxFilter : LowPassFilter := {}
  lastTime : Option ℚ := none
  deriving DecidableEq, Repr

/-- OneEuroFilter._compute_alpha: alpha = 1 / (1 + tau / te) with
tau = 1 / (2 pi cutoff). -/
def computeAlpha (cutoff te : ℚ) : ℚ :=
  1 / (1 + 1 / (2 * mathPi * cutoff) / te)

/-- The time delta used by OneEuroFilter.filter on calls after the first:
te = timestamp - last_time, replaced by 1e-6 when it is not positive. -/
def effectiveTe (lastTime timestamp : ℚ) : ℚ :=
  if timestamp - lastTime ≤ 0 then 1/1000000 else timestamp - lastTime

/-- The raw velocity estimate dx of OneEuroFilter.filter: difference with the
stored filtered value divided by the time delta (0 when the x filter holds no
value yet, as in the source). -/
def OneEuroFilter.stepDx (f : OneEuroFilter) (value te : ℚ) : ℚ :=
  match f.xFilter.lastValue with
  | some lastX => (value - lastX) / te
  | none => 0

/-- The filtered velocity edx together with the updated derivative filter:
the derivative low-pass filter applied to dx with coefficient
computeAlpha d_cutoff te. -/
def OneEuroFilter.stepEdxPair (f : OneEuroFilter) (value te : ℚ) :
    ℚ × LowPassFilter :=
  f.dxFilter.filter (f.stepDx value te) (some (computeAlpha f.dCutoff te))

/-- The adaptive cutoff of a filter step: min_cutoff + beta * abs edx. -/
def OneEuroFilter.stepCutoff (f : OneEuroFilter) (value te : ℚ) : ℚ :=
  f.minCutoff + f.beta * ratAbs (f.stepEdxPair value te).1

/-- OneEuroFilter.filter (smoother.py lines 178-218). First call: record the
timestamp, seed both internal filters and return the value unchanged.
Subsequent calls: clamp the time delta, filter the velocity, compute the
adaptive cutoff and blend the value. The function is total: no input raises. -/
def OneEuroFilter.filter (f : OneEuroFilter) (value timestamp : ℚ) :
    ℚ × OneEuroFilter :=
  match f.lastTime with
  | none =>
      let (_, xf) := f.xFilter.filter value none
      let (_, dxf) := f.dxFilter.filter 0 none
      (value, { f with lastTime := some timestamp, xFilter := xf, dxFilter := dxf })
  | some lastTime =>
      let te := effectiveTe lastTime timestamp
      let dxf := (f.stepEdxPair value te).2
      let cutoff := f.stepCutoff value te
      let (out, xf) := f.xFilter.filter value (some (computeAlpha cutoff te))
      (out, { f with lastTime := some timestamp, xFilter := xf, dxFilter := dxf })

/-- OneEuroFilter.reset: resets both internal filters and forgets the last
timestamp (parameters are kept). -/
def OneEuroFilter.reset (f : OneEuroFilter) : OneEuroFilter :=
  { f with xFilter := f.xFilter.reset, dxFilter := f.dxFilter.reset,
           lastTime := none }

/-- Feed a list of (value, timestamp) samples through a OneEuroFilter,
returning the list of outputs and the final filter. -/
def OneEuroFilter.runList (f : OneEuroFilter) :
    List (ℚ × ℚ) → List ℚ × OneEuroFilter
  | [] => ([], f)
  | (v, t) :: rest =>
      let (out, f1) := f.filter v t
      let (outs, fEnd) := f1.runList rest
      (out :: outs, fEnd)

/-! ## src/gestures/gestures.py and src/gestures/detector.py -/

/-- GestureType enum (gestures.py lines 12-35). -/
inductive GestureType where
  | NONE | FIST | PALM | POINTER | CLICK | CLICK_HOLD | RIGHT_CLICK
  | DOUBLE_CLICK | SCROLL | SCROLL_UP | SCROLL_DOWN | PAUSE
  deriving DecidableEq, Repr

/-- Gesture dataclass (gestures.py lines 55-75): the classified type and the
consecutive-frame counter. The confidence field (constant 1.0) and the
auxiliary data dictionary, which the detector writes but never reads, are not
modelled. -/
structure Gesture where
  type : GestureType
  frames : Nat := 0
  deriving DecidableEq, Repr

/-- ClickState enum (detector.py lines 17-23). -/
inductive ClickState where
  | IDLE | PINCHING | CLICKED | HOLDING
  deriving DecidableEq, Repr

/-- The constructor parameters of GestureDetector (detector.py lines 29-54),
with the source defaults. -/
structure DetectorParams where
  pinchThreshold : ℚ := 7/100
  pinchReleaseThreshold : ℚ := 1/10
  clickHoldFrames : Nat := 2
  doubleClickInterval : ℚ := 2/5
  pauseHoldFrames : Nat := 8
  fingerExtendThreshold : ℚ := 3/5
  deriving DecidableEq, Repr

/-- The per-finger extension booleans computed by
GestureDetector._get_fingers_extended. -/
structure Fingers where
  thumb : Bool
  index : Bool
  middle : Bool
  ring : Bool
  pinky : Bool
  deriving DecidableEq, Repr

/-- The per-frame features that GestureDetector.detect extracts from the raw
hand landmarks before any stateful logic: the finger-extension booleans, the
two fingertip pinch distances (2D Euclidean, z excluded) and the index
fingertip position. -/
structure HandFeatures where
  fingers : Fingers
  thumbIndexDist : ℚ
  thumbMiddleDist : ℚ
  indexTipX : ℚ
  indexTipY : ℚ
  deriving DecidableEq, Repr

/-- The mutable state of GestureDetector (detector.py lines 56-71), with the
initial values set by the constructor and by reset(). -/
structure DetectorState where
  lastGesture : Option Gesture := none
  gestureFrames : Nat := 0
  clickState : ClickState := .IDLE
  pinchStartTime : ℚ := 0
  lastClickTime : ℚ := 0
  clickCount : Nat := 0
  scrollStartY : Option ℚ := none
  scrollAccumulator : ℚ := 0
  deriving DecidableEq, Repr

/-- GestureDetector._reset_click_state (detector.py lines 377-380). -/
def resetClickState (s : DetectorState) : DetectorState :=
  { s with clickState := .IDLE, pinchStartTime := 0 }

/-- The pinch-engagement test of GestureDetector.detect (detector.py lines
90-97): while the click state machine is idle compare against
pinch_threshold, otherwise against the larger pinch_release_threshold. The
same selected threshold is applied to both the thumb-index and the
thumb-middle distance. -/
def pinchFlag (p : DetectorParams) (cs : ClickState) (dist : ℚ) : Bool :=
  if cs = ClickState.IDLE then decide (dist < p.pinchThreshold)
  else decide (dist < p.pinchReleaseThreshold)

/-- GestureDetector._handle_click_state (detector.py lines 217-242). -/
def handleClickState (s : DetectorState) (currentTime : ℚ) :
    GestureType × DetectorState :=
  match s.clickState with
  | .IDLE =>
      (.CLICK, { s with clickState := .PINCHING, pinchStartTime := currentTime })
  | .PINCHING =>
      if 1/4 < currentTime - s.pinchStartTime then
        (.CLICK_HOLD, { s with clickState := .HOLDING })
      else (.CLICK, s)
  | .HOLDING => (.CLICK_HOLD, s)
  | .CLICKED => (.CLICK, s)

/-- GestureDetector._detect_scroll (detector.py lines 244-278): track the
index fingertip y, accumulate the delta, emit SCROLL_DOWN / SCROLL_UP and
clear the accumulator when it passes the 0.03 threshold. -/
def detectScroll (s : DetectorState) (indexTipY : ℚ) :
    GestureType × DetectorState :=
  match s.scrollStartY with
  | none => (.SCROLL, { s with scrollStartY := some indexTipY })
  | some startY =>
      let acc := s.scrollAccumulator + (indexTipY - startY)
      if 3/100 < acc then
        (.SCROLL_DOWN,
          { s with scrollStartY := some indexTipY, scrollAccumulator := 0 })
      else if acc < -(3/100) then
        (.SCROLL_UP,
          { s with scrollStartY := some indexTipY, scrollAccumulator := 0 })
      else
        (.SCROLL,
          { s with scrollStartY := some indexTipY, scrollAccumulator := acc })

/-- The priority cascade of GestureDetector.detect (detector.py lines
108-167): palm, fist, scroll, right click, thumb-index click machine,
pointer, fall-through NONE, each with its click-state side effect. -/
def classify (s : DetectorState) (f : Fingers) (indexTipY : ℚ)
    (currentTime : ℚ) (tiPinch tmPinch : Bool) : GestureType × DetectorState :=
  let allExtended := f.index && f.middle && f.ring && f.pinky
  if allExtended && f.thumb then (.PALM, resetClickState s)
  else if !(f.index || f.middle || f.ring || f.pinky) then
    (.FIST, resetClickState s)
  else if f.index && f.middle && !f.ring && !f.pinky && !tiPinch then
    ((detectScroll s indexTipY).1, resetClickState (detectScroll s indexTipY).2)
  else if tmPinch && !tiPinch then (.RIGHT_CLICK, resetClickState s)
  else if tiPinch then handleClickState s currentTime
  else if f.index && !f.middle && !f.ring && !f.pinky then
    (.POINTER, resetClickState s)
  else (.NONE, s)

/-- The release block of GestureDetector.detect (detector.py lines 169-185):
when the thumb-index pinch is not engaged and the click state machine is not
idle, a short pinch (under 0.3 s) completes a click — the click counter is
incremented if the completion is within the double-click interval of the
previous one and restarted at 1 otherwise — and the click state is reset. -/
def releaseUpdate (p : DetectorParams) (s : DetectorState) (tiPinch : Bool)
    (currentTime : ℚ) : DetectorState :=
  if tiPinch = false ∧ s.clickState ≠ ClickState.IDLE then
    let s1 :=
      if s.clickState = ClickState.PINCHING then
        if currentTime - s.pinchStartTime < 3/10 then
          let s2 :=
            if currentTime - s.lastClickTime < p.doubleClickInterval then
              { s with clickCount := s.clickCount + 1 }
            else { s with clickCount := 1 }
          { s2 with lastClickTime := currentTime }
        else s
      else s
    resetClickState s1
  else s

/-- The scroll-state reset of GestureDetector.detect (detector.py lines
187-194): outside the scroll family, forget the reference y and clear the
accumulator. -/
def scrollReset (gt : GestureType) (s : DetectorState) : DetectorState :=
  if gt = GestureType.SCROLL ∨ gt = GestureType.SCROLL_UP ∨
      gt = GestureType.SCROLL_DOWN then s
  else { s with scrollStartY := none, scrollAccumulator := 0 }

/-- The classification stage of GestureDetector.detect: both pinch flags are
computed from the incoming click state (detector.py lines 87-97), then the
priority cascade runs. -/
def preGesture (p : DetectorParams) (s : DetectorState) (h : HandFeatures)
    (currentTime : ℚ) : GestureType × DetectorState :=
  classify s h.fingers h.indexTipY currentTime
    (pinchFlag p s.clickState h.thumbIndexDist)
    (pinchFlag p s.clickState h.thumbMiddleDist)

/-- The detector state after the release block and the scroll reset of
GestureDetector.detect, still before frame counting. -/
def postState (p : DetectorParams) (s : DetectorState) (h : HandFeatures)
    (currentTime : ℚ) : DetectorState :=
  scrollReset (preGesture p s h currentTime).1
    (releaseUpdate p (preGesture p s h currentTime).2
      (pinchFlag p s.clickState h.thumbIndexDist) currentTime)

/-- The frame counter of the gesture returned by GestureDetector.detect
(detector.py lines 199-203): previous counter plus one while the stored last
gesture has the same type, 1 otherwise. -/
def newFramesOf (p : DetectorParams) (s : DetectorState) (h : HandFeatures)
    (currentTime : ℚ) : Nat :=
  match (postState p s h currentTime).lastGesture with
  | some g =>
      if g.type = (preGesture p s h currentTime).1 then
        (postState p s h currentTime).gestureFrames + 1
      else 1
  | none => 1

/-- GestureDetector.detect (detector.py lines 73-215), embedded after feature
extraction. The internal time.time() call becomes the currentTime argument.
Order as in the source: pinch flags, priority cascade, release block, scroll
reset, frame counting, double-click substitution, storing the returned
gesture. -/
def detect (p : DetectorParams) (s : DetectorState) (h : HandFeatures)
    (currentTime : ℚ) : Gesture × DetectorState :=
  let gt := (preGesture p s h currentTime).1
  let newFrames := newFramesOf p s h currentTime
  let s4 : DetectorState :=
    { postState p s h currentTime with gestureFrames := newFrames }
  let gesture :=
    if gt = GestureType.CLICK ∧ 2 ≤ s4.clickCount then
      (⟨.DOUBLE_CLICK, newFrames⟩ : Gesture)
    else (⟨gt, newFrames⟩ : Gesture)
  let s5 :=
    if gt = GestureType.CLICK ∧ 2 ≤ s4.clickCount then
      { s4 with clickCount := 0 }
    else s4
  (gesture, { s5 with lastGesture := some gesture })

/-- Run GestureDetector.detect over a list of (features, timestamp) frames,
collecting the returned gestures. -/
def runDetect (p : DetectorParams) (s : DetectorState) :
    List (HandFeatures × ℚ) → List Gesture × DetectorState
  | [] => ([], s)
  | (h, t) :: rest =>
      let (g, s1) := detect p s h t
      let (gs, sEnd) := runDetect p s1 rest
      (g :: gs, sEnd)

/-! ## Frame-counter bookkeeping of the detector -/

/-- State invariant maintained by detect: the stored last gesture carries the
stored frame counter, and when the last returned gesture was CLICK or
DOUBLE_CLICK the click counter is below 2 (a CLICK is only returned when the
double-click substitution did not fire, and a DOUBLE_CLICK clears the
counter). -/
def DetectorInv (s : DetectorState) : Prop :=
  match s.lastGesture with
  | none => True
  | some g =>
      g.frames = s.gestureFrames ∧
      ((g.type = GestureType.CLICK ∨ g.type = GestureType.DOUBLE_CLICK) →
        s.clickCount < 2)

theorem handleClickState_preserves (s : DetectorState) (t : ℚ) :
    (handleClickState s t).2.lastGesture = s.lastGesture ∧
    (handleClickState s t).2.gestureFrames = s.gestureFrames ∧
    (handleClickState s t).2.clickCount = s.clickCount := by
  rcases hcs : s.clickState <;>
    simp [handleClickState, hcs] <;> (try split) <;> (try simp)

theorem handleClickState_not_double (s : DetectorState) (t : ℚ) :
    (handleClickState s t).1 ≠ GestureType.DOUBLE_CLICK := by
  rcases hcs : s.clickState <;>
    simp [handleClickState, hcs] <;> (try split) <;> (try simp)

theorem detectScroll_preserves (s : DetectorState) (iy : ℚ) :
    (detectScroll s iy).2.lastGesture = s.lastGesture ∧
    (detectScroll s iy).2.gestureFrames = s.gestureFrames ∧
    (detectScroll s iy).2.clickCount = s.clickCount := by
  rcases hss : s.scrollStartY <;>
    simp [detectScroll, hss] <;> (try split_ifs) <;> (try simp)

theorem detectScroll_scroll_family (s : DetectorState) (iy : ℚ) :
    (detectScroll s iy).1 = GestureType.SCROLL ∨
    (detectScroll s iy).1 = GestureType.SCROLL_UP ∨
    (detectScroll s iy).1 = GestureType.SCROLL_DOWN := by
  rcases hss : s.scrollStartY <;>
    simp [detectScroll, hss] <;> (try split_ifs) <;> (try simp)

theorem detectScroll_ne_click (s : DetectorState) (iy : ℚ) :
    (detectScroll s iy).1 ≠ GestureType.CLICK := by
  rcases detectScroll_scroll_family s iy with hg | hg | hg <;> simp [hg]

theorem detectScroll_ne_double (s : DetectorState) (iy : ℚ) :
    (detectScroll s iy).1 ≠ GestureType.DOUBLE_CLICK := by
  rcases detectScroll_scroll_family s iy with hg | hg | hg <;> simp [hg]

theorem classify_preserves (s : DetectorState) (f : Fingers) (iy t : ℚ)
    (ti tm : Bool) :
    (classify s f iy t ti tm).2.lastGesture = s.lastGesture ∧
    (classify s f iy t ti tm).2.gestureFrames = s.gestureFrames ∧
    (classify s f iy t ti tm).2.clickCount = s.clickCount := by
  rcases f with ⟨th, ix, mi, ri, pi⟩
  cases th <;> cases ix <;> cases mi <;> cases ri <;> cases pi <;>
    cases ti <;> cases tm <;>
    simp [classify, resetClickState, (detectScroll_preserves s iy).1,
      (detectScroll_preserves s iy).2.1, (detectScroll_preserves s iy).2.2,
      (handleClickState_preserves s t).1,
      (handleClickState_preserves s t).2.1,
      (handleClickState_preserves s t).2.2]

theorem classify_click_needs_pinch (s : DetectorState) (f : Fingers)
    (iy t : ℚ) (ti tm : Bool)
    (hc : (classify s f iy t ti tm).1 = GestureType.CLICK) : ti = true := by
  by_contra hti
  rw [Bool.not_eq_true] at hti
  subst hti
  revert hc
  rcases f with ⟨th, ix, mi, ri, pi⟩
  cases th <;> cases ix <;> cases mi <;> cases ri <;> cases pi <;>
    cases tm <;>
    simp [classify, detectScroll_ne_click s iy]

theorem classify_ne_double (s : DetectorState) (f : Fingers) (iy t : ℚ)
    (ti tm : Bool) :
    (classify s f iy t ti tm).1 ≠ GestureType.DOUBLE_CLICK := by
  rcases f with ⟨th, ix, mi, ri, pi⟩
  cases th <;> cases ix <;> cases mi <;> cases ri <;> cases pi <;>
    cases ti <;> cases tm <;>
    simp [classify, detectScroll_ne_double s iy,
      handleClickState_not_double s t]

theorem releaseUpdate_true (p : DetectorParams) (s : DetectorState) (t : ℚ) :
    releaseUpdate p s true t = s := by
  unfold releaseUpdate
  simp

theorem releaseUpdate_preserves (p : DetectorParams) (s : DetectorState)
    (ti : Bool) (t : ℚ) :
    (releaseUpdate p s ti t).lastGesture = s.lastGesture ∧
    (releaseUpdate p s ti t).gestureFrames = s.gestureFrames := by
  unfold releaseUpdate resetClickState
  repeat' split
  all_goals simp

theorem scrollReset_preserves (gt : GestureType) (s : DetectorState) :
    (scrollReset gt s).lastGesture = s.lastGesture ∧
    (scrollReset gt s).gestureFrames = s.gestureFrames ∧
    (scrollReset gt s).clickCount = s.clickCount := by
  unfold scrollReset
  split <;> simp

theorem preGesture_ne_double (p : DetectorParams) (s : DetectorState)
    (h : HandFeatures) (t : ℚ) :
    (preGesture p s h t).1 ≠ GestureType.DOUBLE_CLICK :=
  classify_ne_double s h.fingers h.indexTipY t
    (pinchFlag p s.clickState h.thumbIndexDist)
    (pinchFlag p s.clickState h.thumbMiddleDist)

theorem postState_preserves (p : DetectorParams) (s : DetectorState)
    (h : HandFeatures) (t : ℚ) :
    (postState p s h t).lastGesture = s.lastGesture ∧
    (postState p s h t).gestureFrames = s.gestureFrames := by
  have h1 : (preGesture p s h t).2.lastGesture = s.lastGesture ∧
      (preGesture p s h t).2.gestureFrames = s.gestureFrames ∧
      (preGesture p s h t).2.clickCount = s.clickCount :=
    classify_preserves s h.fingers h.indexTipY t
      (pinchFlag p s.clickState h.thumbIndexDist)
      (pinchFlag p s.clickState h.thumbMiddleDist)
  have h2 := releaseUpdate_preserves p (preGesture p s h t).2
    (pinchFlag p s.clickState h.thumbIndexDist) t
  have h3 := scrollReset_preserves (preGesture p s h t).1
    (releaseUpdate p (preGesture p s h t).2
      (pinchFlag p s.clickState h.thumbIndexDist) t)
  unfold postState
  exact ⟨by rw [h3.1, h2.1, h1.1], by rw [h3.2.1, h2.2, h1.2.1]⟩

theorem postState_clickCount (p : DetectorParams) (s : DetectorState)
    (h : HandFeatures) (t : ℚ)
    (hgt : (preGesture p s h t).1 = GestureType.CLICK) :
    (postState p s h t).clickCount = s.clickCount := by
  have h1 : (preGesture p s h t).2.lastGesture = s.lastGesture ∧
      (preGesture p s h t).2.gestureFrames = s.gestureFrames ∧
      (preGesture p s h t).2.clickCount = s.clickCount :=
    classify_preserves s h.fingers h.indexTipY t
      (pinchFlag p s.clickState h.thumbIndexDist)
      (pinchFlag p s.clickState h.thumbMiddleDist)
  have hti : pinchFlag p s.clickState h.thumbIndexDist = true :=
    classify_click_needs_pinch s h.fingers h.indexTipY t
      (pinchFlag p s.clickState h.thumbIndexDist)
      (pinchFlag p s.clickState h.thumbMiddleDist) hgt
  have h3 := scrollReset_preserves (preGesture p s h t).1
    (releaseUpdate p (preGesture p s h t).2
      (pinchFlag p s.clickState h.thumbIndexDist) t)
  unfold postState
  rw [h3.2.2, hti, releaseUpdate_true, h1.2.2]

theorem detect_fst (p : DetectorParams) (s : DetectorState) (h : HandFeatures)
    (t : ℚ) :
    (detect p s h t).1 =
      if (preGesture p s h t).1 = GestureType.CLICK ∧
          2 ≤ (postState p s h t).clickCount then
        (⟨GestureType.DOUBLE_CLICK, newFramesOf p s h t⟩ : Gesture)
      else ⟨(preGesture p s h t).1, newFramesOf p s h t⟩ := rfl

theorem detect_snd_lastGesture (p : DetectorParams) (s : DetectorState)
    (h : HandFeatures) (t : ℚ) :
    (detect p s h t).2.lastGesture = some (detect p s h t).1 := rfl

theorem detect_snd_gestureFrames (p : DetectorParams) (s : DetectorState)
    (h : HandFeatures) (t : ℚ) :
    (detect p s h t).2.gestureFrames = newFramesOf p s h t := by
  show (if _ then _ else _ : DetectorState).gestureFrames = _
  split <;> rfl

theorem detect_snd_clickCount (p : DetectorParams) (s : DetectorState)
    (h : HandFeatures) (t : ℚ) :
    (detect p s h t).2.clickCount =
      if (preGesture p s h t).1 = GestureType.CLICK ∧
          2 ≤ (postState p s h t).clickCount then 0
      else (postState p s h t).clickCount := by
  by_cases hc : (preGesture p s h t).1 = GestureType.CLICK ∧
      2 ≤ (postState p s h t).clickCount
  · simp [detect, hc]
  · simp [detect, hc]

theorem newFramesOf_eq (p : DetectorParams) (s : DetectorState)
    (h : HandFeatures) (t : ℚ) :
    newFramesOf p s h t =
      match s.lastGesture with
      | some g =>
          if g.type = (preGesture p s h t).1 then s.gestureFrames + 1 else 1
      | none => 1 := by
  unfold newFramesOf
  rw [(postState_preserves p s h t).1, (postState_preserves p s h t).2]

/-- One detect call from a state satisfying the invariant: the returned frame
counter is the previous returned counter plus one when the returned type
repeats, 1 otherwise; the returned gesture is stored; the invariant is
preserved. -/
theorem detect_step (p : DetectorParams) (s : DetectorState) (h : HandFeatures)
    (t : ℚ) (hInv : DetectorInv s) :
    ((detect p s h t).1.frames =
      match s.lastGesture with
      | some g0 =>
          if (detect p s h t).1.type = g0.type then g0.frames + 1 else 1
      | none => 1) ∧
    (detect p s h t).2.lastGesture = some (detect p s h t).1 ∧
    DetectorInv (detect p s h t).2 := by
  refine ⟨?_, detect_snd_lastGesture p s h t, ?_⟩
  · by_cases hrep : (preGesture p s h t).1 = GestureType.CLICK ∧
        2 ≤ (postState p s h t).clickCount
    · have hccs := postState_clickCount p s h t hrep.1
      have h2cc : 2 ≤ s.clickCount := hccs ▸ hrep.2
      rw [detect_fst, if_pos hrep, newFramesOf_eq]
      rcases hsl : s.lastGesture with _ | g0
      · rfl
      · have hInv2 : g0.frames = s.gestureFrames ∧
            ((g0.type = GestureType.CLICK ∨
              g0.type = GestureType.DOUBLE_CLICK) → s.clickCount < 2) := by
          unfold DetectorInv at hInv
          rw [hsl] at hInv
          exact hInv
        have hne : ¬(g0.type = GestureType.CLICK ∨
            g0.type = GestureType.DOUBLE_CLICK) := by
          intro hor
          have := hInv2.2 hor
          omega
        push_neg at hne
        have hrn : ¬ (GestureType.DOUBLE_CLICK = g0.type) := fun hc =>
          hne.2 hc.symm
        simp [hrep.1, hne.1, hrn]
    · rw [detect_fst, if_neg hrep, newFramesOf_eq]
      rcases hsl : s.lastGesture with _ | g0
      · rfl
      · have hInv2 : g0.frames = s.gestureFrames := by
          unfold DetectorInv at hInv
          rw [hsl] at hInv
          exact hInv.1
        by_cases hty : g0.type = (preGesture p s h t).1
        · simp [hty, hInv2]
        · have hty2 : ¬ ((preGesture p s h t).1 = g0.type) := fun hc =>
            hty hc.symm
          simp [hty, hty2]
  · unfold DetectorInv
    rw [detect_snd_lastGesture p s h t]
    refine ⟨?_, ?_⟩
    · rw [detect_snd_gestureFrames]
      rw [detect_fst]
      split <;> rfl
    · intro hor
      rw [detect_snd_clickCount]
      by_cases hrep : (preGesture p s h t).1 = GestureType.CLICK ∧
          2 ≤ (postState p s h t).clickCount
      · rw [if_pos hrep]; omega
      · rw [if_neg hrep]
        rw [detect_fst, if_neg hrep] at hor
        rcases hor with hc | hc
        · simp only at hc
          have : ¬ 2 ≤ (postState p s h t).clickCount := fun hn =>
            hrep ⟨hc, hn⟩
          omega
        · exact absurd hc (preGesture_ne_double p s h t)

/-- The consecutive-frame relation of the returned gesture stream. -/
def framesRel (g0 g1 : Gesture) : Prop :=
  g1.frames = if g1.type = g0.type then g0.frames + 1 else 1

/-- Running detect from any state satisfying the invariant yields a gesture
stream whose counters follow framesRel pairwise, and whose first counter
continues from the stored last gesture. -/
theorem runDetect_chain (p : DetectorParams) (ins : List (HandFeatures × ℚ)) :
    ∀ s : DetectorState, DetectorInv s →
      List.Chain' framesRel (runDetect p s ins).1 ∧
      (∀ gh, (runDetect p s ins).1.head? = some gh →
        gh.frames =
          match s.lastGesture with
          | some g0 => if gh.type = g0.type then g0.frames + 1 else 1
          | none => 1) := by
  induction ins with
  | nil =>
      intro s hInv
      exact ⟨by simp [runDetect], fun gh hgh => by simp [runDetect] at hgh⟩
  | cons ht rest ih =>
      intro s hInv
      obtain ⟨h, t⟩ := ht
      obtain ⟨hstep, hlast, hinv2⟩ := detect_step p s h t hInv
      obtain ⟨ih1, ih2⟩ := ih (detect p s h t).2 hinv2
      have hout : (runDetect p s ((h, t) :: rest)).1 =
          (detect p s h t).1 :: (runDetect p (detect p s h t).2 rest).1 := rfl
      refine ⟨?_, ?_⟩
      · rw [hout]
        refine List.chain'_cons'.mpr ⟨?_, ih1⟩
        intro y hy
        have hy2 := ih2 y hy
        rw [hlast] at hy2
        exact hy2
      · intro gh hgh
        rw [hout] at hgh
        simp only [List.head?_cons, Option.some.injEq] at hgh
        subst hgh
        exact hstep

/-! ## src/control/screen.py -/

/-- The control-zone rectangle of ScreenManager (keys x_min, x_max, y_min,
y_max of the control_zone dictionary). -/
structure ControlZone where
  xMin : ℚ
  xMax : ℚ
  yMin : ℚ
  yMax : ℚ
  deriving DecidableEq, Repr

/-- The default control zone of the ScreenManager constructor. -/
def defaultControlZone : ControlZone := ⟨3/20, 17/20, 3/20, 17/20⟩

/-- ScreenManager.is_in_control_zone (screen.py lines 169-184):
x_min <= x <= x_max and y_min <= y <= y_max, all comparisons inclusive. -/
def isInControlZone (zone : ControlZone) (x y : ℚ) : Bool :=
  decide (zone.xMin ≤ x) && decide (x ≤ zone.xMax) &&
  (decide (zone.yMin ≤ y) && decide (y ≤ zone.yMax))

/-! ## src/core/state_machine.py -/

/-- ControlState enum (state_machine.py lines 15-25). -/
inductive ControlState where
  | IDLE | POINTING | CLICKING | DRAGGING | SCROLLING | PAUSED
  | CALIBRATING | TUTORIAL
  deriving DecidableEq, Repr

/-- A registered callback: an identifier (its registration handle) together
with its runtime behaviour — whether invoking it raises an exception. The
source stores arbitrary Python callables; only invocation order and the
raise/return outcome are observable to the state machine. -/
structure Callback where
  id : Nat
  raises : Bool
  deriving DecidableEq, Repr

/-- Invoking a callback: normal return or a raised exception. -/
def runCallback (cb : Callback) : Except Unit Unit :=
  if cb.raises then .error () else .ok ()

/-- The callback-firing loops of the state machine
(_fire_enter_callbacks and _fire_exit_callbacks, state_machine.py lines
355-371, and the change-callback loop of _do_transition, lines 244-248):
every callback in the list is invoked in order inside its own try/except, and
an exception is swallowed so the loop continues with the next callback. The
returned list records the invoked callback ids in invocation order. -/
def fireCallbackList (cbs : List Callback) : List Nat :=
  cbs.foldl
    (fun invoked cb =>
      match runCallback cb with
      | .ok _ => invoked ++ [cb.id]
      | .error _ => invoked ++ [cb.id])
    []

/-- StateInfo (state_machine.py lines 39-52): the history snapshot. The
values of the scratch-data dictionary are irrelevant to every claim; the
snapshot keeps its keys. -/
structure StateInfo where
  state : ControlState
  enteredAt : ℚ
  previousState : Option ControlState
  gesture : Option GestureType
  data : List String
  deriving DecidableEq, Repr

/-- The mutable state of GestureStateMachine (state_machine.py lines 74-94).
The enter/exit callback dictionaries and the transition table are association
lists; callbacks fire in registration (list) order. -/
structure SMState where
  state : ControlState
  previousState : Option ControlState := none
  enteredAt : ℚ := 0
  currentGesture : Option GestureType := none
  stateData : List String := []
  callbacks : List Callback := []
  enterCallbacks : List (ControlState × List Callback) := []
  exitCallbacks : List (ControlState × List Callback) := []
  transitions : List ((ControlState × GestureType) × ControlState) := []
  history : List StateInfo := []
  historySize : Nat := 50
  deriving DecidableEq, Repr

/-- Dictionary lookup for the enter/exit callback tables (missing key: no
callbacks fire). -/
def getCallbacks (assoc : List (ControlState × List Callback))
    (st : ControlState) : List Callback :=
  match assoc.find? (fun e => e.1 = st) with
  | some e => e.2
  | none => []

/-- Lookup in the transition table (`key in self._transitions`). -/
def lookupTransition
    (ts : List ((ControlState × GestureType) × ControlState))
    (key : ControlState × GestureType) : Option ControlState :=
  match ts.find? (fun e => e.1 = key) with
  | some e => some e.2
  | none => none

/-- GestureStateMachine.state_info (state_machine.py lines 182-190). -/
def SMState.stateInfo (sm : SMState) : StateInfo :=
  ⟨sm.state, sm.enteredAt, sm.previousState, sm.currentGesture, sm.stateData⟩

/-- GestureStateMachine._record_history (state_machine.py lines 373-378):
append the snapshot and keep only the last history_size entries. -/
def recordHistory (sm : SMState) : SMState :=
  let h := sm.history ++ [sm.stateInfo]
  { sm with history :=
      if sm.historySize < h.length then h.drop (h.length - sm.historySize)
      else h }

/-- The trace of callback invocations produced by one transition. -/
structure CallbackTrace where
  exitIds : List Nat
  enterIds : List Nat
  changeIds : List Nat
  deriving DecidableEq, Repr

/-- The empty trace: no callback was invoked. -/
def emptyTrace : CallbackTrace := ⟨[], [], []⟩

/-- GestureStateMachine._do_transition (state_machine.py lines 218-248):
a self-transition returns immediately; otherwise record history, fire exit
callbacks of the old state, update state / previous state / entered-at /
clear scratch data, fire enter callbacks of the new state, fire the generic
state-change callbacks. Each callback is fired inside try/except, so the
function is total: no callback exception escapes it. The time.time() call
becomes the now argument; the gesture argument is passed to the change
callbacks (not observable in the trace model). -/
def doTransition (sm : SMState) (oldState newState : ControlState)
    (gesture : Option GestureType) (now : ℚ) : SMState × CallbackTrace :=
  if oldState = newState then (sm, emptyTrace)
  else
    let sm1 := recordHistory sm
    let exitIds := fireCallbackList (getCallbacks sm1.exitCallbacks oldState)
    let sm2 := { sm1 with previousState := some oldState, state := newState,
                          enteredAt := now, stateData := [] }
    let enterIds := fireCallbackList (getCallbacks sm2.enterCallbacks newState)
    let changeIds := fireCallbackList sm2.callbacks
    (sm2, ⟨exitIds, enterIds, changeIds⟩)

/-- GestureStateMachine.process_gesture (state_machine.py lines 192-216):
record the incoming gesture, look the pair (state, gesture) up in the
transition table, run _do_transition when an entry exists, otherwise keep the
current state. Returns (old state, new state) as in the source, plus the
updated machine and the invocation trace. -/
def processGesture (sm : SMState) (gesture : GestureType) (now : ℚ) :
    (ControlState × ControlState) × SMState × CallbackTrace :=
  let oldState := sm.state
  let sm1 := { sm with currentGesture := some gesture }
  match lookupTransition sm1.transitions (sm1.state, gesture) with
  | some newState =>
      let r := doTransition sm1 oldState newState (some gesture) now
      ((oldState, newState), r.1, r.2)
  | none => ((oldState, sm1.state), sm1, emptyTrace)

/-- GestureStateMachine.force_state (state_machine.py lines 250-259):
bypasses the table and transitions directly. -/
def forceState (sm : SMState) (state : ControlState)
    (gesture : Option GestureType) (now : ℚ) : SMState × CallbackTrace :=
  doTransition sm sm.state state gesture now

/-- The default transition table installed by
GestureStateMachine._setup_default_transitions (state_machine.py lines
96-159), in insertion order. -/
def defaultTransitions :
    List ((ControlState × GestureType) × ControlState) :=
  [((.IDLE, .POINTER), .POINTING),
   ((.IDLE, .PALM), .PAUSED),
   ((.IDLE, .SCROLL), .SCROLLING),
   ((.POINTING, .CLICK), .CLICKING),
   ((.POINTING, .RIGHT_CLICK), .CLICKING),
   ((.POINTING, .SCROLL), .SCROLLING),
   ((.POINTING, .FIST), .IDLE),
   ((.POINTING, .NONE), .IDLE),
   ((.POINTING, .PALM), .PAUSED),
   ((.CLICKING, .CLICK_HOLD), .DRAGGING),
   ((.CLICKING, .POINTER), .POINTING),
   ((.CLICKING, .NONE), .IDLE),
   ((.CLICKING, .FIST), .IDLE),
   ((.DRAGGING, .POINTER), .POINTING),
   ((.DRAGGING, .NONE), .IDLE),
   ((.DRAGGING, .FIST), .IDLE),
   ((.SCROLLING, .POINTER), .POINTING),
   ((.SCROLLING, .NONE), .IDLE),
   ((.SCROLLING, .FIST), .IDLE),
   ((.SCROLLING, .PALM), .PAUSED),
   ((.PAUSED, .PALM), .IDLE),
   ((.PAUSED, .POINTER), .POINTING),
   ((.PAUSED, .FIST), .IDLE)]

/-! ## Concrete detector fixtures -/

/-- A hand with only the ring finger extended: it avoids the palm, fist,
scroll and pointer branches of the priority cascade, isolating the pinch
logic. -/
def ringOnly : Fingers := ⟨false, false, false, true, false⟩

/-- The click-family gesture outcomes of the thumb-index pinch branch. -/
def clickFamily (gt : GestureType) : Prop :=
  gt = GestureType.CLICK ∨ gt = GestureType.CLICK_HOLD ∨
    gt = GestureType.DOUBLE_CLICK

/-- Detector parameters of the repository test fixture for click-hold:
pinch_threshold 0.05, click_hold_frames 3 (tests/test_gestures.py). -/
def c2Params : DetectorParams := { pinchThreshold := 1/20, clickHoldFrames := 3 }

/-- A thumb-index pinch at distance 0.03 with a neutral hand. -/
def c2Frame : HandFeatures := ⟨ringOnly, 3/100, 1, 0, 0⟩

/-! ## Basic facts about the smoother arithmetic -/

theorem mathPi_pos : 0 < mathPi := by norm_num [mathPi]

theorem effectiveTe_pos (lastTime timestamp : ℚ) :
    0 < effectiveTe lastTime timestamp := by
  unfold effectiveTe
  split
  · norm_num
  · linarith [not_le.mp (by assumption : ¬ timestamp - lastTime ≤ 0)]

theorem computeAlpha_eq_aux (cutoff te : ℚ) (hc : 0 < cutoff) (hte : 0 < te) :
    (1 : ℚ) + 1 / (2 * mathPi * cutoff) / te =
      (2 * mathPi * cutoff * te + 1) / (2 * mathPi * cutoff * te) := by
  have hpi := mathPi_pos
  have h1 : 2 * mathPi * cutoff ≠ 0 := by positivity
  have h2 : te ≠ 0 := ne_of_gt hte
  field_simp

/-- Closed form of computeAlpha for positive cutoff and delta:
K / (K + 1) with K = 2 pi cutoff te. -/
theorem computeAlpha_eq (cutoff te : ℚ) (hc : 0 < cutoff) (hte : 0 < te) :
    computeAlpha cutoff te =
      (2 * mathPi * cutoff * te) / (2 * mathPi * cutoff * te + 1) := by
  unfold computeAlpha
  rw [computeAlpha_eq_aux cutoff te hc hte, one_div_div]

theorem computeAlpha_pos (cutoff te : ℚ) (hc : 0 < cutoff) (hte : 0 < te) :
    0 < computeAlpha cutoff te := by
  rw [computeAlpha_eq cutoff te hc hte]
  have := mathPi_pos
  positivity

theorem computeAlpha_lt_one (cutoff te : ℚ) (hc : 0 < cutoff) (hte : 0 < te) :
    computeAlpha cutoff te < 1 := by
  rw [computeAlpha_eq cutoff te hc hte]
  have hk : 0 < 2 * mathPi * cutoff * te := by have := mathPi_pos; positivity
  rw [div_lt_one (by linarith)]
  linarith

theorem computeAlpha_le_computeAlpha (c1 c2 te : ℚ) (h1 : 0 < c1)
    (h12 : c1 ≤ c2) (hte : 0 < te) :
    computeAlpha c1 te ≤ computeAlpha c2 te := by
  have h2 : 0 < c2 := lt_of_lt_of_le h1 h12
  rw [computeAlpha_eq c1 te h1 hte, computeAlpha_eq c2 te h2 hte]
  have hpi := mathPi_pos
  have hk1 : 0 < 2 * mathPi * c1 * te := by positivity
  have hk2 : 0 < 2 * mathPi * c2 * te := by positivity
  rw [div_le_div_iff (by linarith) (by linarith)]
  nlinarith

theorem computeAlpha_lt_computeAlpha (c1 c2 te : ℚ) (h1 : 0 < c1)
    (h12 : c1 < c2) (hte : 0 < te) :
    computeAlpha c1 te < computeAlpha c2 te := by
  have h2 : 0 < c2 := lt_trans h1 h12
  rw [computeAlpha_eq c1 te h1 hte, computeAlpha_eq c2 te h2 hte]
  have hpi := mathPi_pos
  have hk1 : 0 < 2 * mathPi * c1 * te := by positivity
  have hk2 : 0 < 2 * mathPi * c2 * te := by positivity
  rw [div_lt_div_iff (by linarith) (by linarith)]
  nlinarith

/-! ## Claim theorems: smoother and screen manager -/

/-- C6: for every parameter set, input value and timestamp, the first call of
OneEuroFilter.filter after construction (last timestamp absent) and the first
call after reset() return the input value unchanged. -/
theorem C6_first_call_identity (minCutoff beta dCutoff v t : ℚ)
    (f : OneEuroFilter) :
    ((⟨minCutoff, beta, dCutoff, {}, {}, none⟩ : OneEuroFilter).filter v t).1
        = v
    ∧ ((f.reset).filter v t).1 = v := by
  constructor
  · rfl
  · simp [OneEuroFilter.reset, OneEuroFilter.filter]

/-- C7: on every call of OneEuroFilter.filter after the first (any timestamp,
including one equal to or before the stored timestamp), the effective time
delta is strictly positive, and every divisor used by the velocity and alpha
computations (2 pi d_cutoff, the delta itself, 1 + tau/te for both the
derivative cutoff and the adaptive cutoff) is strictly positive, so no
division by zero occurs; the embedded filter is a total function, so no
finite input raises. -/
theorem C7_delta_clamped_positive (f : OneEuroFilter) (t0 v t : ℚ)
    (hlast : f.lastTime = some t0) (hmc : 0 < f.minCutoff) (hb : 0 ≤ f.beta)
    (hdc : 0 < f.dCutoff) :
    0 < effectiveTe t0 t ∧
    0 < 2 * mathPi * f.dCutoff ∧
    0 < 1 + 1 / (2 * mathPi * f.dCutoff) / effectiveTe t0 t ∧
    0 < f.stepCutoff v (effectiveTe t0 t) ∧
    0 < 2 * mathPi * f.stepCutoff v (effectiveTe t0 t) ∧
    0 < 1 + 1 / (2 * mathPi * f.stepCutoff v (effectiveTe t0 t)) /
          effectiveTe t0 t := by
  have hte := effectiveTe_pos t0 t
  have hpi := mathPi_pos
  have hcut : 0 < f.stepCutoff v (effectiveTe t0 t) := by
    unfold OneEuroFilter.stepCutoff
    rw [ratAbs_eq_abs]
    have : 0 ≤ f.beta * |(f.stepEdxPair v (effectiveTe t0 t)).1| :=
      mul_nonneg hb (abs_nonneg _)
    linarith
  refine ⟨hte, by positivity, ?_, hcut, by positivity, ?_⟩
  · have : 0 < 1 / (2 * mathPi * f.dCutoff) / effectiveTe t0 t := by positivity
    linarith
  · have : 0 < 1 / (2 * mathPi * f.stepCutoff v (effectiveTe t0 t)) /
        effectiveTe t0 t := by positivity
    linarith

/-- Witness for C7 at a concrete filter state and input. -/
theorem C7_delta_clamped_positive_witness :
    0 < effectiveTe 5 3 ∧
    0 < 2 * mathPi * (1 : ℚ) ∧
    0 < 1 + 1 / (2 * mathPi * (1 : ℚ)) / effectiveTe 5 3 ∧
    0 < OneEuroFilter.stepCutoff ⟨1, 1, 1, {}, {}, some 5⟩ 7 (effectiveTe 5 3) ∧
    0 < 2 * mathPi *
        OneEuroFilter.stepCutoff ⟨1, 1, 1, {}, {}, some 5⟩ 7 (effectiveTe 5 3) ∧
    0 < 1 + 1 / (2 * mathPi *
        OneEuroFilter.stepCutoff ⟨1, 1, 1, {}, {}, some 5⟩ 7 (effectiveTe 5 3)) /
          effectiveTe 5 3 :=
  C7_delta_clamped_positive ⟨1, 1, 1, {}, {}, some 5⟩ 5 7 3 rfl
    (by norm_num) (by norm_num) (by norm_num)

/-- C10: a point lying on the boundary of the control-zone rectangle (either
x on a vertical edge with y inside the vertical range, or y on a horizontal
edge with x inside the horizontal range) is inside the zone:
ScreenManager.is_in_control_zone uses inclusive comparisons on all four
edges. -/
theorem C10_zone_boundary_inclusive (zone : ControlZone) (x y : ℚ)
    (hx : zone.xMin ≤ zone.xMax) (hy : zone.yMin ≤ zone.yMax)
    (hb : ((x = zone.xMin ∨ x = zone.xMax) ∧ zone.yMin ≤ y ∧ y ≤ zone.yMax) ∨
          ((y = zone.yMin ∨ y = zone.yMax) ∧ zone.xMin ≤ x ∧ x ≤ zone.xMax)) :
    isInControlZone zone x y = true := by
  unfold isInControlZone
  simp only [Bool.and_eq_true, decide_eq_true_eq]
  rcases hb with ⟨hedge, hy1, hy2⟩ | ⟨hedge, hx1, hx2⟩
  · rcases hedge with h | h <;> subst h
    · exact ⟨⟨le_refl _, hx⟩, hy1, hy2⟩
    · exact ⟨⟨hx, le_refl _⟩, hy1, hy2⟩
  · rcases hedge with h | h <;> subst h
    · exact ⟨⟨hx1, hx2⟩, le_refl _, hy⟩
    · exact ⟨⟨hx1, hx2⟩, hy, le_refl _⟩

/-- A OneEuroFilter whose internal state is fully populated: parameters
min_cutoff, beta, d_cutoff, a stored filtered value, a stored filtered
derivative and a stored timestamp (the state reached after at least one call;
after exactly one call the stored values are the first sample, 0 and the
first timestamp, independent of beta). -/
def oneEuroWithState (mc b dc xl dl t0 : ℚ) : OneEuroFilter :=
  ⟨mc, b, dc, ⟨1/2, some xl⟩, ⟨1/2, some dl⟩, some t0⟩

theorem oneEuro_filter_closed_form (mc b dc xl dl t0 v t : ℚ) :
    ((oneEuroWithState mc b dc xl dl t0).filter v t).1 =
      computeAlpha
          ((oneEuroWithState mc b dc xl dl t0).stepCutoff v (effectiveTe t0 t))
          (effectiveTe t0 t) * v +
        (1 - computeAlpha
          ((oneEuroWithState mc b dc xl dl t0).stepCutoff v (effectiveTe t0 t))
          (effectiveTe t0 t)) * xl := rfl

/-- C9 (amended): for two OneEuroFilter instances holding the same internal
state (stored filtered value, filtered derivative and timestamp — the
situation after one identical initializing sample, whose stored state does
not depend on beta) and identical parameters except a strictly larger beta
(beta nonnegative, min_cutoff and d_cutoff positive), a single filter step on
the same value and timestamp lands at least as close to the input value for
the higher-beta instance, and strictly closer when the filtered velocity
estimate is nonzero and the input differs from the stored filtered value. -/
theorem C9_amended_beta_monotone (mc b1 b2 dc xl dl t0 v t : ℚ)
    (hmc : 0 < mc) (hb1 : 0 ≤ b1) (hb : b1 < b2) (hdc : 0 < dc) :
    |((oneEuroWithState mc b2 dc xl dl t0).filter v t).1 - v| ≤
      |((oneEuroWithState mc b1 dc xl dl t0).filter v t).1 - v| ∧
    (((oneEuroWithState mc b1 dc xl dl t0).stepEdxPair v
        (effectiveTe t0 t)).1 ≠ 0 → xl ≠ v →
      |((oneEuroWithState mc b2 dc xl dl t0).filter v t).1 - v| <
        |((oneEuroWithState mc b1 dc xl dl t0).filter v t).1 - v|) := by
  have hte : 0 < effectiveTe t0 t := effectiveTe_pos t0 t
  set te := effectiveTe t0 t with hteDef
  set e := ((oneEuroWithState mc b1 dc xl dl t0).stepEdxPair v te).1 with heDef
  have heB : ((oneEuroWithState mc b2 dc xl dl t0).stepEdxPair v te).1 = e := rfl
  have hcutA : (oneEuroWithState mc b1 dc xl dl t0).stepCutoff v te =
      mc + b1 * |e| := by
    show mc + b1 * ratAbs e = mc + b1 * |e|
    rw [ratAbs_eq_abs]
  have hcutB : (oneEuroWithState mc b2 dc xl dl t0).stepCutoff v te =
      mc + b2 * |e| := by
    show mc + b2 * ratAbs e = mc + b2 * |e|
    rw [ratAbs_eq_abs]
  have hcApos : 0 < mc + b1 * |e| := by
    have : 0 ≤ b1 * |e| := mul_nonneg hb1 (abs_nonneg _)
    linarith
  have hcBpos : 0 < mc + b2 * |e| := by
    have : 0 ≤ b2 * |e| := mul_nonneg (le_of_lt (lt_of_le_of_lt hb1 hb))
      (abs_nonneg _)
    linarith
  have hcle : mc + b1 * |e| ≤ mc + b2 * |e| := by
    have : b1 * |e| ≤ b2 * |e| :=
      mul_le_mul_of_nonneg_right (le_of_lt hb) (abs_nonneg _)
    linarith
  have hA1 : computeAlpha (mc + b1 * |e|) te ≤ computeAlpha (mc + b2 * |e|) te :=
    computeAlpha_le_computeAlpha _ _ te hcApos hcle hte
  have hAlt1 : computeAlpha (mc + b1 * |e|) te < 1 :=
    computeAlpha_lt_one _ te hcApos hte
  have hBlt1 : computeAlpha (mc + b2 * |e|) te < 1 :=
    computeAlpha_lt_one _ te hcBpos hte
  have houtA : ((oneEuroWithState mc b1 dc xl dl t0).filter v t).1 - v =
      (1 - computeAlpha (mc + b1 * |e|) te) * (xl - v) := by
    rw [oneEuro_filter_closed_form, ← hteDef, hcutA]; ring
  have houtB : ((oneEuroWithState mc b2 dc xl dl t0).filter v t).1 - v =
      (1 - computeAlpha (mc + b2 * |e|) te) * (xl - v) := by
    rw [oneEuro_filter_closed_form, ← hteDef, hcutB]; ring
  have habsA : |((oneEuroWithState mc b1 dc xl dl t0).filter v t).1 - v| =
      (1 - computeAlpha (mc + b1 * |e|) te) * |xl - v| := by
    rw [houtA, abs_mul, abs_of_nonneg (by linarith)]
  have habsB : |((oneEuroWithState mc b2 dc xl dl t0).filter v t).1 - v| =
      (1 - computeAlpha (mc + b2 * |e|) te) * |xl - v| := by
    rw [houtB, abs_mul, abs_of_nonneg (by linarith)]
  constructor
  · rw [habsA, habsB]
    exact mul_le_mul_of_nonneg_right (by linarith) (abs_nonneg _)
  · intro hedx hxlv
    have hepos : 0 < |e| := abs_pos.mpr hedx
    have hclt : mc + b1 * |e| < mc + b2 * |e| := by nlinarith
    have hAlt : computeAlpha (mc + b1 * |e|) te <
        computeAlpha (mc + b2 * |e|) te :=
      computeAlpha_lt_computeAlpha _ _ te hcApos hclt hte
    have hdpos : 0 < |xl - v| := abs_pos.mpr (sub_ne_zero.mpr hxlv)
    rw [habsA, habsB]
    exact mul_lt_mul_of_pos_right (by linarith) hdpos

/-- Witness for C9 (amended) at concrete parameters and state. -/
theorem C9_amended_beta_monotone_witness :
    |((oneEuroWithState 1 2 1 0 0 0).filter 1 1).1 - 1| ≤
      |((oneEuroWithState 1 1 1 0 0 0).filter 1 1).1 - 1| ∧
    (((oneEuroWithState 1 1 1 0 0 0).stepEdxPair 1 (effectiveTe 0 1)).1 ≠ 0 →
      (0 : ℚ) ≠ 1 →
      |((oneEuroWithState 1 2 1 0 0 0).filter 1 1).1 - 1| <
        |((oneEuroWithState 1 1 1 0 0 0).filter 1 1).1 - 1|) :=
  C9_amended_beta_monotone 1 1 2 1 0 0 0 1 1 (by norm_num) (by norm_num)
    (by norm_num) (by norm_num)

/-- C9 (counterexample): after the same input history of two samples, the
claim fails. Both filters receive (value 0 at time 0) then (value 1 at
time 1); the higher-beta instance (beta 2 versus beta 1, identical positive
min_cutoff and d_cutoff) then filters the same new value 4/5 at time 2 to an
output strictly farther from the input value than the lower-beta instance,
even though its filtered velocity estimate is nonzero — the same input
history leaves the two instances with different stored filtered values, which
the claim does not account for. -/
theorem C9_counterexample :
    4/5 < (OneEuroFilter.runList ⟨1, 1, 1, {}, {}, none⟩
          [(0, 0), (1, 1), (4/5, 2)]).1.getD 2 0 ∧
    (OneEuroFilter.runList ⟨1, 1, 1, {}, {}, none⟩
          [(0, 0), (1, 1), (4/5, 2)]).1.getD 2 0 <
      (OneEuroFilter.runList ⟨1, 2, 1, {}, {}, none⟩
          [(0, 0), (1, 1), (4/5, 2)]).1.getD 2 0 ∧
    ¬ (|((OneEuroFilter.runList ⟨1, 2, 1, {}, {}, none⟩
          [(0, 0), (1, 1), (4/5, 2)]).1.getD 2 0 - 4/5)| ≤
       |((OneEuroFilter.runList ⟨1, 1, 1, {}, {}, none⟩
          [(0, 0), (1, 1), (4/5, 2)]).1.getD 2 0 - 4/5)|) := by
  have h1 : 4/5 < (OneEuroFilter.runList ⟨1, 1, 1, {}, {}, none⟩
      [(0, 0), (1, 1), (4/5, 2)]).1.getD 2 0 := by
    norm_num [OneEuroFilter.runList, OneEuroFilter.filter,
      OneEuroFilter.stepCutoff, OneEuroFilter.stepEdxPair,
      OneEuroFilter.stepDx, LowPassFilter.filter, computeAlpha, effectiveTe,
      ratAbs, mathPi]
  have h2 : (OneEuroFilter.runList ⟨1, 1, 1, {}, {}, none⟩
        [(0, 0), (1, 1), (4/5, 2)]).1.getD 2 0 <
      (OneEuroFilter.runList ⟨1, 2, 1, {}, {}, none⟩
        [(0, 0), (1, 1), (4/5, 2)]).1.getD 2 0 := by
    norm_num [OneEuroFilter.runList, OneEuroFilter.filter,
      OneEuroFilter.stepCutoff, OneEuroFilter.stepEdxPair,
      OneEuroFilter.stepDx, LowPassFilter.filter, computeAlpha, effectiveTe,
      ratAbs, mathPi]
  refine ⟨h1, h2, ?_⟩
  rw [abs_of_pos (by linarith), abs_of_pos (by linarith)]
  intro hle
  linarith

/-- Witness for C10 on the default control zone: the corner-adjacent boundary
point (3/20, 1/2) is inside. -/
theorem C10_zone_boundary_inclusive_witness :
    isInControlZone defaultControlZone (3/20) (1/2) = true :=
  C10_zone_boundary_inclusive defaultControlZone (3/20) (1/2)
    (by norm_num [defaultControlZone]) (by norm_num [defaultControlZone])
    (Or.inl ⟨Or.inl (by norm_num [defaultControlZone]),
      by norm_num [defaultControlZone], by norm_num [defaultControlZone]⟩)

/-! ## Claim theorems: gesture detector -/

/-- C2 (code evaluated at the failing input): with the repository test
fixture (pinch_threshold 0.05, click_hold_frames 3), five consecutive
thumb-index pinch frames at distance 0.03 taken 10 ms apart all classify as
CLICK — the detector never reaches CLICK_HOLD, although more than
click_hold_frames consecutive pinch frames have elapsed. A second part shows
the transition is wall-clock based: only two pinch frames, 300 ms apart
(fewer frames than click_hold_frames), already produce CLICK_HOLD on the
second frame. The click_hold_frames parameter is stored but never read by
GestureDetector.detect. -/
theorem C2_hold_is_time_based :
    ((runDetect c2Params {} [(c2Frame, 0), (c2Frame, 1/100), (c2Frame, 2/100),
        (c2Frame, 3/100), (c2Frame, 4/100)]).1.map Gesture.type =
      [.CLICK, .CLICK, .CLICK, .CLICK, .CLICK]) ∧
    ((runDetect c2Params {} [(c2Frame, 0), (c2Frame, 3/10)]).1.map
        Gesture.type = [.CLICK, .CLICK_HOLD]) := by
  constructor <;>
    norm_num [runDetect, detect, preGesture, postState, newFramesOf, classify, pinchFlag, handleClickState,
      releaseUpdate, scrollReset, resetClickState, detectScroll, c2Params,
      c2Frame, ringOnly]

/-- C3 (counterexample): with the default thresholds (engage 0.07, release
0.10), a thumb-middle pinch engaged at distance 0.02 is released on the next
frame at distance 0.08, although 0.08 is below the release threshold — the
claim, which says a pinched pair releases exactly when the distance reaches
pinch_release_threshold, predicts RIGHT_CLICK again; the code classifies
NONE, because emitting RIGHT_CLICK resets the click state machine to idle and
the idle branch compares the thumb-middle distance against pinch_threshold
again. -/
theorem C3_counterexample :
    ((runDetect {} {} [(⟨ringOnly, 1, 1/50, 0, 0⟩, 0),
        (⟨ringOnly, 1, 2/25, 0, 0⟩, 1)]).1.map Gesture.type =
      [.RIGHT_CLICK, .NONE]) ∧
    (DetectorParams.pinchThreshold {} ≤ 2/25) ∧
    ((2/25 : ℚ) < DetectorParams.pinchReleaseThreshold {}) := by
  refine ⟨?_, by norm_num [DetectorParams.pinchThreshold],
    by norm_num [DetectorParams.pinchReleaseThreshold]⟩
  norm_num [runDetect, detect, preGesture, postState, newFramesOf, classify, pinchFlag, handleClickState,
    releaseUpdate, scrollReset, resetClickState, detectScroll, ringOnly]

/-- C3 (amended): the engage/release threshold is selected by the thumb-index
click sub-state and shared by both pinch pairs. For a neutral hand (only the
ring finger extended) and a thumb-middle distance at or above both
thresholds: when the click state is idle, the frame classifies into the click
family — and the click machine engages — exactly when the thumb-index
distance is strictly below pinch_threshold; when the click state is not idle,
exactly when it is strictly below pinch_release_threshold. The thumb-index
pair is therefore hysteretic as claimed, while the thumb-middle pair merely
inherits the threshold selected by the thumb-index click state. -/
theorem C3_amended_hysteresis (p : DetectorParams) (s : DetectorState)
    (tid tmd ix iy t : ℚ) (htm1 : p.pinchThreshold ≤ tmd)
    (htm2 : p.pinchReleaseThreshold ≤ tmd) :
    (s.clickState = ClickState.IDLE →
      ((clickFamily (detect p s ⟨ringOnly, tid, tmd, ix, iy⟩ t).1.type ↔
          tid < p.pinchThreshold) ∧
       ((detect p s ⟨ringOnly, tid, tmd, ix, iy⟩ t).2.clickState ≠
            ClickState.IDLE ↔ tid < p.pinchThreshold))) ∧
    (s.clickState ≠ ClickState.IDLE →
      ((clickFamily (detect p s ⟨ringOnly, tid, tmd, ix, iy⟩ t).1.type ↔
          tid < p.pinchReleaseThreshold) ∧
       ((detect p s ⟨ringOnly, tid, tmd, ix, iy⟩ t).2.clickState ≠
            ClickState.IDLE ↔ tid < p.pinchReleaseThreshold))) := by
  have htmA : ¬ (tmd < p.pinchThreshold) := not_lt.mpr htm1
  have htmB : ¬ (tmd < p.pinchReleaseThreshold) := not_lt.mpr htm2
  constructor
  · intro hidle
    by_cases hd : tid < p.pinchThreshold
    · simp [detect, preGesture, postState, newFramesOf, classify, pinchFlag, handleClickState, releaseUpdate,
        scrollReset, resetClickState, clickFamily, hidle, hd, htmA, ringOnly]
      all_goals (split <;> (try split) <;> (try split) <;> simp_all)
    · simp [detect, preGesture, postState, newFramesOf, classify, pinchFlag, handleClickState, releaseUpdate,
        scrollReset, resetClickState, clickFamily, hidle, hd, htmA, ringOnly]
  · intro hnotidle
    by_cases hd : tid < p.pinchReleaseThreshold
    · rcases hcs : s.clickState with _ | _ | _ | _
      · exact absurd hcs hnotidle
      · simp [detect, preGesture, postState, newFramesOf, classify, pinchFlag, handleClickState, releaseUpdate,
          scrollReset, resetClickState, clickFamily, hcs, hd, htmB, ringOnly]
        all_goals (split <;> (try split) <;> (try split) <;> simp_all)
      · simp [detect, preGesture, postState, newFramesOf, classify, pinchFlag, handleClickState, releaseUpdate,
          scrollReset, resetClickState, clickFamily, hcs, hd, htmB, ringOnly]
        all_goals (split <;> (try split) <;> (try split) <;> simp_all)
      · simp [detect, preGesture, postState, newFramesOf, classify, pinchFlag, handleClickState, releaseUpdate,
          scrollReset, resetClickState, clickFamily, hcs, hd, htmB, ringOnly]
    · rcases hcs : s.clickState with _ | _ | _ | _
      · exact absurd hcs hnotidle
      all_goals
        simp [detect, preGesture, postState, newFramesOf, classify, pinchFlag, handleClickState, releaseUpdate,
          scrollReset, resetClickState, clickFamily, hcs, hd, htmB, ringOnly]

theorem fireCallbackList_eq_map (cbs : List Callback) :
    fireCallbackList cbs = cbs.map Callback.id := by
  suffices haux : ∀ acc : List Nat,
      cbs.foldl (fun invoked cb =>
        match runCallback cb with
        | .ok _ => invoked ++ [cb.id]
        | .error _ => invoked ++ [cb.id]) acc = acc ++ cbs.map Callback.id by
    simpa [fireCallbackList] using haux []
  induction cbs with
  | nil => intro acc; simp
  | cons cb rest ih =>
      intro acc
      have hstep : (match runCallback cb with
          | .ok _ => acc ++ [cb.id]
          | .error _ => acc ++ [cb.id]) = acc ++ [cb.id] := by
        cases runCallback cb <;> rfl
      simp only [List.foldl_cons, List.map_cons, hstep, ih]
      simp

/-- C4: when the transition table has no entry for the current state and the
incoming gesture, or maps the pair to the current state itself,
process_gesture leaves the current state, the entered-at timestamp, the
previous-state field and the history buffer unchanged and fires no enter,
exit or state-change callback (empty invocation trace); it returns the pair
(old state, old state). -/
theorem C4_missing_or_self_noop (sm : SMState) (g : GestureType) (now : ℚ)
    (hno : lookupTransition sm.transitions (sm.state, g) = none ∨
           lookupTransition sm.transitions (sm.state, g) = some sm.state) :
    (processGesture sm g now).1 = (sm.state, sm.state) ∧
    (processGesture sm g now).2.1.state = sm.state ∧
    (processGesture sm g now).2.1.enteredAt = sm.enteredAt ∧
    (processGesture sm g now).2.1.previousState = sm.previousState ∧
    (processGesture sm g now).2.1.history = sm.history ∧
    (processGesture sm g now).2.2 = emptyTrace := by
  rcases hno with hn | hs
  · simp [processGesture, hn]
  · simp [processGesture, hs, doTransition]

/-- Witness for C4: from IDLE with the default table, CLICK has no entry —
process_gesture is a no-op on every listed field and fires nothing. -/
theorem C4_missing_or_self_noop_witness :
    (processGesture
        { state := .IDLE, enteredAt := 5, previousState := some .POINTING,
          transitions := defaultTransitions } GestureType.CLICK 9).1 =
      (ControlState.IDLE, ControlState.IDLE) ∧
    (processGesture
        { state := .IDLE, enteredAt := 5, previousState := some .POINTING,
          transitions := defaultTransitions } GestureType.CLICK 9).2.1.state =
      ControlState.IDLE ∧
    (processGesture
        { state := .IDLE, enteredAt := 5, previousState := some .POINTING,
          transitions := defaultTransitions } GestureType.CLICK 9).2.1.enteredAt
      = 5 ∧
    (processGesture
        { state := .IDLE, enteredAt := 5, previousState := some .POINTING,
          transitions := defaultTransitions } GestureType.CLICK
        9).2.1.previousState = some .POINTING ∧
    (processGesture
        { state := .IDLE, enteredAt := 5, previousState := some .POINTING,
          transitions := defaultTransitions } GestureType.CLICK 9).2.1.history
      = [] ∧
    (processGesture
        { state := .IDLE, enteredAt := 5, previousState := some .POINTING,
          transitions := defaultTransitions } GestureType.CLICK 9).2.2 =
      emptyTrace :=
  C4_missing_or_self_noop
    { state := .IDLE, enteredAt := 5, previousState := some .POINTING,
      transitions := defaultTransitions } GestureType.CLICK 9
    (Or.inl (by simp [lookupTransition, defaultTransitions]))

/-- C5: on every non-self transition (force_state directly, or
process_gesture through a table entry), no callback exception escapes — both
functions are total and return an ordinary value — every registered exit,
enter and state-change callback is invoked in registration order regardless
of which callbacks raise (the invocation trace lists them all), and the
machine completes its update: new state, entered-at timestamp, recorded
previous state and cleared scratch data. -/
theorem C5_callback_isolation (sm : SMState) (target : ControlState)
    (g : Option GestureType) (g2 : GestureType) (now : ℚ)
    (hne : sm.state ≠ target) :
    ((forceState sm target g now).1.state = target ∧
     (forceState sm target g now).1.enteredAt = now ∧
     (forceState sm target g now).1.previousState = some sm.state ∧
     (forceState sm target g now).1.stateData = [] ∧
     (forceState sm target g now).2.exitIds =
       (getCallbacks sm.exitCallbacks sm.state).map Callback.id ∧
     (forceState sm target g now).2.enterIds =
       (getCallbacks sm.enterCallbacks target).map Callback.id ∧
     (forceState sm target g now).2.changeIds = sm.callbacks.map Callback.id) ∧
    (lookupTransition sm.transitions (sm.state, g2) = some target →
      ((processGesture sm g2 now).2.1.state = target ∧
       (processGesture sm g2 now).2.1.enteredAt = now ∧
       (processGesture sm g2 now).2.1.previousState = some sm.state ∧
       (processGesture sm g2 now).2.1.stateData = [] ∧
       (processGesture sm g2 now).2.2.exitIds =
         (getCallbacks sm.exitCallbacks sm.state).map Callback.id ∧
       (processGesture sm g2 now).2.2.enterIds =
         (getCallbacks sm.enterCallbacks target).map Callback.id ∧
       (processGesture sm g2 now).2.2.changeIds =
         sm.callbacks.map Callback.id)) := by
  constructor
  · simp [forceState, doTransition, hne, fireCallbackList_eq_map,
      recordHistory, SMState.stateInfo]
  · intro hlook
    simp [processGesture, hlook, doTransition, hne, fireCallbackList_eq_map,
      recordHistory, SMState.stateInfo]

/-- Witness for C5 on a concrete machine whose exit, enter and change
callback lists all contain raising callbacks: the transition IDLE to POINTING
still completes and every callback id appears in the trace in order. -/
theorem C5_callback_isolation_witness :
    ((forceState
        { state := .IDLE, enteredAt := 3,
          callbacks := [⟨0, true⟩, ⟨1, false⟩],
          enterCallbacks := [(.POINTING, [⟨10, true⟩, ⟨11, false⟩])],
          exitCallbacks := [(.IDLE, [⟨20, true⟩, ⟨21, true⟩])],
          transitions := defaultTransitions } ControlState.POINTING none
        7).1.state = ControlState.POINTING ∧
     (forceState
        { state := .IDLE, enteredAt := 3,
          callbacks := [⟨0, true⟩, ⟨1, false⟩],
          enterCallbacks := [(.POINTING, [⟨10, true⟩, ⟨11, false⟩])],
          exitCallbacks := [(.IDLE, [⟨20, true⟩, ⟨21, true⟩])],
          transitions := defaultTransitions } ControlState.POINTING none
        7).1.enteredAt = 7 ∧
     (forceState
        { state := .IDLE, enteredAt := 3,
          callbacks := [⟨0, true⟩, ⟨1, false⟩],
          enterCallbacks := [(.POINTING, [⟨10, true⟩, ⟨11, false⟩])],
          exitCallbacks := [(.IDLE, [⟨20, true⟩, ⟨21, true⟩])],
          transitions := defaultTransitions } ControlState.POINTING none
        7).1.previousState = some ControlState.IDLE ∧
     (forceState
        { state := .IDLE, enteredAt := 3,
          callbacks := [⟨0, true⟩, ⟨1, false⟩],
          enterCallbacks := [(.POINTING, [⟨10, true⟩, ⟨11, false⟩])],
          exitCallbacks := [(.IDLE, [⟨20, true⟩, ⟨21, true⟩])],
          transitions := defaultTransitions } ControlState.POINTING none
        7).1.stateData = [] ∧
     (forceState
        { state := .IDLE, enteredAt := 3,
          callbacks := [⟨0, true⟩, ⟨1, false⟩],
          enterCallbacks := [(.POINTING, [⟨10, true⟩, ⟨11, false⟩])],
          exitCallbacks := [(.IDLE, [⟨20, true⟩, ⟨21, true⟩])],
          transitions := defaultTransitions } ControlState.POINTING none
        7).2.exitIds =
       (getCallbacks [(.IDLE, [⟨20, true⟩, ⟨21, true⟩])]
         ControlState.IDLE).map Callback.id ∧
     (forceState
        { state := .IDLE, enteredAt := 3,
          callbacks := [⟨0, true⟩, ⟨1, false⟩],
          enterCallbacks := [(.POINTING, [⟨10, true⟩, ⟨11, false⟩])],
          exitCallbacks := [(.IDLE, [⟨20, true⟩, ⟨21, true⟩])],
          transitions := defaultTransitions } ControlState.POINTING none
        7).2.enterIds =
       (getCallbacks [(.POINTING, [⟨10, true⟩, ⟨11, false⟩])]
         ControlState.POINTING).map Callback.id ∧
     (forceState
        { state := .IDLE, enteredAt := 3,
          callbacks := [⟨0, true⟩, ⟨1, false⟩],
          enterCallbacks := [(.POINTING, [⟨10, true⟩, ⟨11, false⟩])],
          exitCallbacks := [(.IDLE, [⟨20, true⟩, ⟨21, true⟩])],
          transitions := defaultTransitions } ControlState.POINTING none
        7).2.changeIds = ([⟨0, true⟩, ⟨1, false⟩] : List Callback).map
          Callback.id) ∧
    (lookupTransition defaultTransitions (ControlState.IDLE, .POINTER) =
        some ControlState.POINTING →
      ((processGesture
          { state := .IDLE, enteredAt := 3,
            callbacks := [⟨0, true⟩, ⟨1, false⟩],
            enterCallbacks := [(.POINTING, [⟨10, true⟩, ⟨11, false⟩])],
            exitCallbacks := [(.IDLE, [⟨20, true⟩, ⟨21, true⟩])],
            transitions := defaultTransitions } GestureType.POINTER
          7).2.1.state = ControlState.POINTING ∧
       (processGesture
          { state := .IDLE, enteredAt := 3,
            callbacks := [⟨0, true⟩, ⟨1, false⟩],
            enterCallbacks := [(.POINTING, [⟨10, true⟩, ⟨11, false⟩])],
            exitCallbacks := [(.IDLE, [⟨20, true⟩, ⟨21, true⟩])],
            transitions := defaultTransitions } GestureType.POINTER
          7).2.1.enteredAt = 7 ∧
       (processGesture
          { state := .IDLE, enteredAt := 3,
            callbacks := [⟨0, true⟩, ⟨1, false⟩],
            enterCallbacks := [(.POINTING, [⟨10, true⟩, ⟨11, false⟩])],
            exitCallbacks := [(.IDLE, [⟨20, true⟩, ⟨21, true⟩])],
            transitions := defaultTransitions } GestureType.POINTER
          7).2.1.previousState = some ControlState.IDLE ∧
       (processGesture
          { state := .IDLE, enteredAt := 3,
            callbacks := [⟨0, true⟩, ⟨1, false⟩],
            enterCallbacks := [(.POINTING, [⟨10, true⟩, ⟨11, false⟩])],
            exitCallbacks := [(.IDLE, [⟨20, true⟩, ⟨21, true⟩])],
            transitions := defaultTransitions } GestureType.POINTER
          7).2.1.stateData = [] ∧
       (processGesture
          { state := .IDLE, enteredAt := 3,
            callbacks := [⟨0, true⟩, ⟨1, false⟩],
            enterCallbacks := [(.POINTING, [⟨10, true⟩, ⟨11, false⟩])],
            exitCallbacks := [(.IDLE, [⟨20, true⟩, ⟨21, true⟩])],
            transitions := defaultTransitions } GestureType.POINTER
          7).2.2.exitIds =
         (getCallbacks [(.IDLE, [⟨20, true⟩, ⟨21, true⟩])]
           ControlState.IDLE).map Callback.id ∧
       (processGesture
          { state := .IDLE, enteredAt := 3,
            callbacks := [⟨0, true⟩, ⟨1, false⟩],
            enterCallbacks := [(.POINTING, [⟨10, true⟩, ⟨11, false⟩])],
            exitCallbacks := [(.IDLE, [⟨20, true⟩, ⟨21, true⟩])],
            transitions := defaultTransitions } GestureType.POINTER
          7).2.2.enterIds =
         (getCallbacks [(.POINTING, [⟨10, true⟩, ⟨11, false⟩])]
           ControlState.POINTING).map Callback.id ∧
       (processGesture
          { state := .IDLE, enteredAt := 3,
            callbacks := [⟨0, true⟩, ⟨1, false⟩],
            enterCallbacks := [(.POINTING, [⟨10, true⟩, ⟨11, false⟩])],
            exitCallbacks := [(.IDLE, [⟨20, true⟩, ⟨21, true⟩])],
            transitions := defaultTransitions } GestureType.POINTER
          7).2.2.changeIds =
         ([⟨0, true⟩, ⟨1, false⟩] : List Callback).map Callback.id)) :=
  C5_callback_isolation
    { state := .IDLE, enteredAt := 3,
      callbacks := [⟨0, true⟩, ⟨1, false⟩],
      enterCallbacks := [(.POINTING, [⟨10, true⟩, ⟨11, false⟩])],
      exitCallbacks := [(.IDLE, [⟨20, true⟩, ⟨21, true⟩])],
      transitions := defaultTransitions } ControlState.POINTING none
    GestureType.POINTER 7 (by simp)

/-- A neutral-hand thumb-index pinch frame at distance 0.02. -/
def c1Pinch : HandFeatures := ⟨ringOnly, 1/50, 1, 0, 0⟩

/-- A neutral-hand frame with both pinches far open. -/
def c1Release : HandFeatures := ⟨ringOnly, 1, 1, 0, 0⟩

/-- C1 (counterexample): with double_click_interval = 0.35 s, two completed
clicks (pinch at t=0 released at t=0.1, pinch at t=0.2 released at t=0.3;
both held under 0.3 s, completions 0.2 s apart, within the interval) produce
the gesture sequence [Click, None, Click, None]: the second completion frame
classifies as None, not DoubleClick, and no frame of the two-click episode
is DoubleClick — the code only raises the click counter to 2 at the second
completion and emits DoubleClick on the first Click frame of a later pinch. -/
theorem C1_counterexample :
    ((runDetect { doubleClickInterval := 7/20 } {}
        [(c1Pinch, 0), (c1Release, 1/10), (c1Pinch, 2/10),
         (c1Release, 3/10)]).1.map Gesture.type =
      [.CLICK, .NONE, .CLICK, .NONE]) ∧
    ((1 : ℚ)/10 - 0 < 3/10) ∧ ((3 : ℚ)/10 - 2/10 < 3/10) ∧
    ((3 : ℚ)/10 - 1/10 < 7/20) ∧
    GestureType.NONE ≠ GestureType.DOUBLE_CLICK := by
  refine ⟨?_, by norm_num, by norm_num, by norm_num, by simp⟩
  norm_num [runDetect, detect, preGesture, postState, newFramesOf, classify, pinchFlag, handleClickState,
    releaseUpdate, scrollReset, resetClickState, detectScroll, c1Pinch,
    c1Release, ringOnly]
  simp +decide

/-- C1 (amended): a completed click (pinch engaged on a neutral hand,
released in under 0.3 s on a frame whose classification falls through to
None) increments the click counter when its completion lies within
double_click_interval of the previous completion and restarts it at 1
otherwise; DoubleClick is emitted on the first Click frame of the next
pinch once the counter has reached 2, not on the completion frame itself.
Concretely: pinch at t1, release at t2, pinch at t3, release at t4, pinch at
t5 yields [Click, None, Click, None, X] with X = DoubleClick exactly when
the two completions are within the interval and X = Click otherwise. -/
theorem C1_amended_doubleclick (pt prt dci t1 t2 t3 t4 t5 : ℚ)
    (hpt : 0 < pt) (hptr : pt < prt) (h1 : t2 - t1 < 3/10)
    (h2 : t4 - t3 < 3/10) :
    ((runDetect
        { pinchThreshold := pt, pinchReleaseThreshold := prt,
          doubleClickInterval := dci } {}
        [(⟨ringOnly, 0, pt + prt, 0, 0⟩, t1),
         (⟨ringOnly, pt + prt, pt + prt, 0, 0⟩, t2),
         (⟨ringOnly, 0, pt + prt, 0, 0⟩, t3),
         (⟨ringOnly, pt + prt, pt + prt, 0, 0⟩, t4),
         (⟨ringOnly, 0, pt + prt, 0, 0⟩, t5)]).1.map Gesture.type =
      [.CLICK, .NONE, .CLICK, .NONE,
        if t4 - t2 < dci then .DOUBLE_CLICK else .CLICK]) := by
  have hA : ¬ (pt + prt < pt) := by linarith
  have hB : ¬ (pt + prt < prt) := by linarith
  by_cases hc1 : t2 < dci <;> by_cases hc2 : t4 - t2 < dci <;>
    simp [runDetect, detect, preGesture, postState, newFramesOf, classify, pinchFlag, handleClickState,
      releaseUpdate, scrollReset, resetClickState, ringOnly, hpt, hA, hB,
      h1, h2, hc1, hc2]

/-- Witness for C1 (amended) at concrete thresholds and times. -/
theorem C1_amended_doubleclick_witness :
    ((runDetect
        { pinchThreshold := 7/100, pinchReleaseThreshold := 1/10,
          doubleClickInterval := 7/20 } {}
        [(⟨ringOnly, 0, 7/100 + 1/10, 0, 0⟩, 0),
         (⟨ringOnly, 7/100 + 1/10, 7/100 + 1/10, 0, 0⟩, 1/10),
         (⟨ringOnly, 0, 7/100 + 1/10, 0, 0⟩, 2/10),
         (⟨ringOnly, 7/100 + 1/10, 7/100 + 1/10, 0, 0⟩, 3/10),
         (⟨ringOnly, 0, 7/100 + 1/10, 0, 0⟩, 2/5)]).1.map Gesture.type =
      [.CLICK, .NONE, .CLICK, .NONE,
        if (3 : ℚ)/10 - 1/10 < 7/20 then .DOUBLE_CLICK else .CLICK]) :=
  C1_amended_doubleclick (7/100) (1/10) (7/20) 0 (1/10) (2/10) (3/10) (2/5)
    (by norm_num) (by norm_num) (by norm_num) (by norm_num)

/-- A hand with only the index finger extended (the pointer pose). -/
def indexOnly : Fingers := ⟨false, true, false, false, false⟩

/-- C8: over any run of GestureDetector.detect from the freshly constructed
(or reset) detector, the frame counters of consecutive returned gestures
follow framesRel — the counter is the previous counter plus one when the
returned type repeats and 1 when it changes — the first returned gesture has
counter 1, and five identical pointer classifications yield counters
1,2,3,4,5. -/
theorem C8_frame_counter (p : DetectorParams) (ins : List (HandFeatures × ℚ)) :
    List.Chain' framesRel (runDetect p {} ins).1 ∧
    ((runDetect p {} ins).1.headD ⟨GestureType.NONE, 1⟩).frames = 1 ∧
    ((runDetect {} {} (List.replicate 5 (⟨indexOnly, 1, 1, 0, 0⟩, 0))).1.map
        Gesture.frames = [1, 2, 3, 4, 5]) := by
  obtain ⟨h1, h2⟩ := runDetect_chain p ins {} (by trivial)
  refine ⟨h1, ?_, ?_⟩
  · rcases houts : (runDetect p {} ins).1 with _ | ⟨g, rest⟩
    · rfl
    · have := h2 g (by rw [houts]; rfl)
      simpa using this
  · norm_num [List.replicate, runDetect, detect, preGesture, postState,
      newFramesOf, classify, pinchFlag, handleClickState, releaseUpdate,
      scrollReset, resetClickState, detectScroll, indexOnly]

/-- Witness for C3 (amended) at a concrete state and features. -/
theorem C3_amended_hysteresis_witness :
    (DetectorState.clickState {} = ClickState.IDLE →
      ((clickFamily (detect {} {} ⟨ringOnly, 1/50, 1, 0, 0⟩ 0).1.type ↔
          (1/50 : ℚ) < DetectorParams.pinchThreshold {}) ∧
       ((detect {} {} ⟨ringOnly, 1/50, 1, 0, 0⟩ 0).2.clickState ≠
            ClickState.IDLE ↔ (1/50 : ℚ) < DetectorParams.pinchThreshold {}))) ∧
    (DetectorState.clickState {} ≠ ClickState.IDLE →
      ((clickFamily (detect {} {} ⟨ringOnly, 1/50, 1, 0, 0⟩ 0).1.type ↔
          (1/50 : ℚ) < DetectorParams.pinchReleaseThreshold {}) ∧
       ((detect {} {} ⟨ringOnly, 1/50, 1, 0, 0⟩ 0).2.clickState ≠
            ClickState.IDLE ↔
          (1/50 : ℚ) < DetectorParams.pinchReleaseThreshold {}))) :=
  C3_amended_hysteresis {} {} (1/50) 1 0 0 0
    (by norm_num [DetectorParams.pinchThreshold])
    (by norm_num [DetectorParams.pinchReleaseThreshold])

end LyraPointer
